import Mathlib

/-!
# Verification of the elysia-supabase authentication guards

Shallow embedding of `src/supabase.ts` (positional-argument API) and
`src/unnamed/part_002` (single-options-object API, v0.6.0).  Both files export
two Elysia guards, `supabase` (strict) and `anon_supabase` (permissive), whose
per-request resolve handlers are textually identical between the two files; the
only difference is the surface shape of the construction arguments, and in both
shapes an omitted argument defaults to `process.env.SUPABASE_URL` /
`process.env.SUPABASE_ANON_KEY`, evaluated when the guard factory is called
(JavaScript default-parameter / destructuring-default semantics).

The embedding models:
  * the environment snapshot (`Env`),
  * JS truthiness on `string | null | undefined` (`isFalsy`),
  * construction-time resolution of the url/key arguments (`resolveArg`,
    `supabase_mk`, `anon_supabase_mk`),
  * the opaque `SupabaseClientOptions` value, abstracted to the fields the
    merge expression `{...options, global: {...options?.global, headers:
    { Authorization }}}` can distinguish: top-level fields other than `global`,
    fields of `global` other than `headers`, and the `headers` object itself
    (`ClientOptions`, `GlobalOptions`, `HeadersMap`, `mergeOptions`),
  * `createClient` as an opaque factory capturing its arguments (`Client`),
  * the backend identity lookup `supabase.auth.getUser()` as an oracle
    `Client → GetUserResp`,
  * the two per-request resolve handlers (`supabaseResolve`,
    `anonSupabaseResolve`) returning either an Elysia `error(status, message?)`
    outcome or the `{ supabase, user }` context extension (`Outcome`).
-/

namespace ElysiaSupabase

/-- Snapshot of the two environment variables the module reads
(`process.env.SUPABASE_URL`, `process.env.SUPABASE_ANON_KEY`); `none` models an
unset variable (`undefined`). -/
structure Env where
  supabaseUrl : Option String
  supabaseAnonKey : Option String
deriving DecidableEq, Repr

/-- JavaScript truthiness test `!x` on a `string | null | undefined` value:
true (falsy) exactly when the value is absent or the empty string. -/
def isFalsy : Option String → Bool
  | none => true
  | some s => s == ""

/-- A JS headers object (`Record<string, string>`), modelled as an association
list; lookup is `List.lookup`. -/
abbrev HeadersMap := List (String × String)

/-- The `global` sub-object of `SupabaseClientOptions`.  `headers` is the field
the source overwrites; `otherGlobal` stands for every other field of `global`
(e.g. `fetch`), which the spread `...options?.global` copies verbatim. -/
structure GlobalOptions where
  headers : Option HeadersMap
  otherGlobal : Option String
deriving DecidableEq, Repr

/-- Caller-supplied `SupabaseClientOptions`.  `global` is the sub-object the
source rebuilds; `otherTop` stands for every top-level field other than
`global` (e.g. `db`, `auth`), which the spread `...options` copies verbatim. -/
structure ClientOptions where
  global : Option GlobalOptions
  otherTop : Option String
deriving DecidableEq, Repr

/-- The options value the source passes to `createClient`:
`{ ...options, global: { ...options?.global, headers: { Authorization } } }`.
Object-spread semantics: properties written after a spread overwrite the spread
ones, so `global` is always the rebuilt object and its `headers` property is
always exactly the one-key object `{ Authorization }`. -/
def mergeOptions (options : Option ClientOptions) (authorization : String) :
    ClientOptions :=
  { otherTop := options.bind (·.otherTop)
  , global := some
      { otherGlobal := (options.bind (·.global)).bind (·.otherGlobal)
      , headers := some [("Authorization", authorization)] } }

/-- The backend client: `createClient(url, key, options)` is treated as an
opaque factory, so a client is just the triple of arguments it was built
from. -/
structure Client where
  url : String
  key : String
  options : ClientOptions
deriving DecidableEq, Repr

/-- `createClient` from `@supabase/supabase-js`, as the opaque factory. -/
def createClient (url key : String) (options : ClientOptions) : Client :=
  ⟨url, key, options⟩

/-- The authenticated principal (`User`); only its presence matters to the
guards, but we keep the `email` field used by the repository's examples. -/
structure User where
  email : String
deriving DecidableEq, Repr

/-- Result of `await supabase.auth.getUser()`: `data.user` (possibly null) and
whether `error` was set. -/
structure GetUserResp where
  user : Option User
  error : Bool
deriving DecidableEq, Repr

/-- State captured by the guard's resolve closure at construction time: the
already-resolved `supabase_url` and `supabase_anon_key` (either may still be
`undefined`, or hold an explicitly supplied string, possibly empty) and the
caller's `options`. -/
structure GuardState where
  supabaseUrl : Option String
  supabaseAnonKey : Option String
  options : Option ClientOptions
deriving DecidableEq, Repr

/-- JS default-argument resolution for `supabase_url = process.env.SUPABASE_URL`
(and likewise for the key): the environment fallback applies only when the
argument is absent (`undefined`); any explicitly supplied string, including
`""`, is kept. -/
def resolveArg (explicit : Option String) (envVal : Option String) :
    Option String :=
  match explicit with
  | some v => some v
  | none => envVal

/-- Construction of the strict guard `supabase(...)`: the default parameters
are evaluated now, against the current environment snapshot, and the results
are captured by the resolve closure.  Construction itself never fails. -/
def supabase_mk (env : Env) (url key : Option String)
    (options : Option ClientOptions) : GuardState :=
  { supabaseUrl := resolveArg url env.supabaseUrl
  , supabaseAnonKey := resolveArg key env.supabaseAnonKey
  , options := options }

/-- Construction of the permissive guard `anon_supabase(...)`: identical
argument handling to `supabase_mk`. -/
def anon_supabase_mk (env : Env) (url key : Option String)
    (options : Option ClientOptions) : GuardState :=
  { supabaseUrl := resolveArg url env.supabaseUrl
  , supabaseAnonKey := resolveArg key env.supabaseAnonKey
  , options := options }

/-- Outcome of one request through a guard's resolve handler: either
`error(status, message?)` (Elysia rejection; `message = none` models the
message-less `error(401)` call) or the `{ supabase, user }` context extension
(`user` is `Option` because `resp.data.user` may be null). -/
inductive Outcome where
  | err (status : Nat) (message : Option String)
  | ok (client : Client) (user : Option User)
deriving DecidableEq, Repr

/-- Per-request resolve handler of the strict guard `supabase`.
`authorizationHeader` models `request.headers.get("Authorization")` (`none` for
an absent header, `some ""` for a present-but-empty one); `getUser` is the
backend oracle for `await supabase.auth.getUser()`. -/
def supabaseResolve (g : GuardState) (authorizationHeader : Option String)
    (getUser : Client → GetUserResp) : Outcome :=
  if isFalsy g.supabaseUrl then
    .err 500 (some "SUPABASE_URL is not set")
  else if isFalsy g.supabaseAnonKey then
    .err 500 (some "SUPABASE_ANON_KEY is not set")
  else if isFalsy authorizationHeader then
    .err 401 (some "Authorization header is missing")
  else
    let client := createClient (g.supabaseUrl.getD "") (g.supabaseAnonKey.getD "")
      (mergeOptions g.options (authorizationHeader.getD ""))
    let resp := getUser client
    if resp.error then .err 401 none
    else .ok client resp.user

/-- Per-request resolve handler of the permissive guard `anon_supabase`:
identical to `supabaseResolve` except that `resp.error` is never inspected —
the handler returns `{ supabase, user: resp.data.user }` unconditionally. -/
def anonSupabaseResolve (g : GuardState) (authorizationHeader : Option String)
    (getUser : Client → GetUserResp) : Outcome :=
  if isFalsy g.supabaseUrl then
    .err 500 (some "SUPABASE_URL is not set")
  else if isFalsy g.supabaseAnonKey then
    .err 500 (some "SUPABASE_ANON_KEY is not set")
  else if isFalsy authorizationHeader then
    .err 401 (some "Authorization header is missing")
  else
    let client := createClient (g.supabaseUrl.getD "") (g.supabaseAnonKey.getD "")
      (mergeOptions g.options (authorizationHeader.getD ""))
    let resp := getUser client
    .ok client resp.user

/-- The headers object inside an options value (empty when absent); used to
state header-preservation properties. -/
def headersOf (o : ClientOptions) : HeadersMap :=
  (o.global.bind (·.headers)).getD []

/-- Modelled from the spec: the spec's reading of environment handling
("read once per request when not supplied at construction"), which re-resolves
the construction arguments against the environment *as it stands at request
time* and then runs the same check sequence.  Used only to compare the spec's
claim C8 with the code, whose closures capture the environment at construction
time. -/
def supabaseResolveEnvPerRequest (envAtRequest : Env) (url key : Option String)
    (options : Option ClientOptions) (authorizationHeader : Option String)
    (getUser : Client → GetUserResp) : Outcome :=
  supabaseResolve
    { supabaseUrl := resolveArg url envAtRequest.supabaseUrl
    , supabaseAnonKey := resolveArg key envAtRequest.supabaseAnonKey
    , options := options }
    authorizationHeader getUser

/-- A backend oracle that accepts every credential, resolving it to the
identity used in the repository's examples. -/
def backendOk : Client → GetUserResp := fun _ => ⟨some ⟨"a@b.com"⟩, false⟩

/-- A backend oracle that rejects every credential: `getUser` reports an error
and a null user. -/
def backendErr : Client → GetUserResp := fun _ => ⟨none, true⟩

/-- Claim C1: for every request handled by either guard, the checks run in the
fixed order endpoint, access key, Authorization header, short-circuiting on the
first failure, and each failure produces exactly its (status, message) pair:
unresolved endpoint gives 500 "SUPABASE_URL is not set" (also when the key is
unset too); unresolved access key gives 500 "SUPABASE_ANON_KEY is not set";
absent Authorization header gives 401 "Authorization header is missing". -/
theorem C1_check_order_and_failure_pairs (g : GuardState)
    (auth : Option String) (b : Client → GetUserResp) :
    (isFalsy g.supabaseUrl = true →
      supabaseResolve g auth b = .err 500 (some "SUPABASE_URL is not set")
      ∧ anonSupabaseResolve g auth b = .err 500 (some "SUPABASE_URL is not set"))
    ∧ (isFalsy g.supabaseUrl = false → isFalsy g.supabaseAnonKey = true →
      supabaseResolve g auth b = .err 500 (some "SUPABASE_ANON_KEY is not set")
      ∧ anonSupabaseResolve g auth b = .err 500 (some "SUPABASE_ANON_KEY is not set"))
    ∧ (isFalsy g.supabaseUrl = false → isFalsy g.supabaseAnonKey = false →
      isFalsy auth = true →
      supabaseResolve g auth b = .err 401 (some "Authorization header is missing")
      ∧ anonSupabaseResolve g auth b = .err 401 (some "Authorization header is missing")) := by
  refine ⟨fun h1 => ?_, fun h1 h2 => ?_, fun h1 h2 h3 => ?_⟩ <;>
    constructor <;> simp [supabaseResolve, anonSupabaseResolve, h1, *]

/-- Witness for C1: the three failure branches at concrete inputs; the first
uses a guard with both endpoint and key unset and still gets the endpoint
error. -/
theorem C1_check_order_witness :
    supabaseResolve ⟨none, none, none⟩ (some "Bearer t") backendOk
      = .err 500 (some "SUPABASE_URL is not set")
    ∧ anonSupabaseResolve ⟨some "https://x.test", none, none⟩ (some "Bearer t") backendOk
      = .err 500 (some "SUPABASE_ANON_KEY is not set")
    ∧ supabaseResolve ⟨some "https://x.test", some "anon-key", none⟩ none backendOk
      = .err 401 (some "Authorization header is missing") :=
  ⟨((C1_check_order_and_failure_pairs ⟨none, none, none⟩
      (some "Bearer t") backendOk).1 (by decide)).1,
   ((C1_check_order_and_failure_pairs ⟨some "https://x.test", none, none⟩
      (some "Bearer t") backendOk).2.1 (by decide) (by decide)).2,
   ((C1_check_order_and_failure_pairs ⟨some "https://x.test", some "anon-key", none⟩
      none backendOk).2.2 (by decide) (by decide) (by decide)).1⟩

/-- Claim C2: for the strict guard, with resolvable endpoint and key and a
present Authorization header, a backend identity-lookup error yields
`error(401)` with no message body — a rejection, so no `{client, user}` context
extension is attached. -/
theorem C2_strict_rejects_invalid_credential (g : GuardState)
    (auth : Option String) (b : Client → GetUserResp)
    (hu : isFalsy g.supabaseUrl = false)
    (hk : isFalsy g.supabaseAnonKey = false)
    (ha : isFalsy auth = false)
    (he : (b (createClient (g.supabaseUrl.getD "") (g.supabaseAnonKey.getD "")
        (mergeOptions g.options (auth.getD "")))).error = true) :
    supabaseResolve g auth b = .err 401 none := by
  simp [supabaseResolve, hu, hk, ha, he]

/-- Witness for C2 at a concrete configuration, request and rejecting
backend. -/
theorem C2_strict_rejects_witness :
    supabaseResolve ⟨some "https://x.test", some "anon-key", none⟩
      (some "Bearer bad") backendErr = .err 401 none :=
  C2_strict_rejects_invalid_credential ⟨some "https://x.test", some "anon-key", none⟩
    (some "Bearer bad") backendErr (by decide) (by decide) (by decide) rfl

/-- Claim C3: for the permissive guard, with resolvable endpoint and key and a
present Authorization header, the backend's error result is never inspected:
the guard always succeeds and attaches the client together with whatever
identity the backend returned (possibly null).  The backend oracle `b` is
unconstrained, so this holds in particular when it reports an error. -/
theorem C3_permissive_ignores_validation_error (g : GuardState)
    (auth : Option String) (b : Client → GetUserResp)
    (hu : isFalsy g.supabaseUrl = false)
    (hk : isFalsy g.supabaseAnonKey = false)
    (ha : isFalsy auth = false) :
    anonSupabaseResolve g auth b =
      .ok (createClient (g.supabaseUrl.getD "") (g.supabaseAnonKey.getD "")
            (mergeOptions g.options (auth.getD "")))
          ((b (createClient (g.supabaseUrl.getD "") (g.supabaseAnonKey.getD "")
            (mergeOptions g.options (auth.getD "")))).user) := by
  simp [anonSupabaseResolve, hu, hk, ha]

/-- Witness for C3: a backend that reports an error and a null user still
produces a success with a null identity on the permissive guard. -/
theorem C3_permissive_witness :
    anonSupabaseResolve ⟨some "https://x.test", some "anon-key", none⟩
      (some "Bearer bad") backendErr =
      .ok (createClient "https://x.test" "anon-key"
            (mergeOptions none "Bearer bad")) none :=
  C3_permissive_ignores_validation_error
    ⟨some "https://x.test", some "anon-key", none⟩
    (some "Bearer bad") backendErr (by decide) (by decide) (by decide)

/-- Claim C4: for both guard variants, once the configuration checks pass,
a request that carries no Authorization header is rejected with 401
"Authorization header is missing" — the permissive variant never waives the
presence requirement. -/
theorem C4_missing_header_rejected_both_guards (g : GuardState)
    (b : Client → GetUserResp)
    (hu : isFalsy g.supabaseUrl = false)
    (hk : isFalsy g.supabaseAnonKey = false) :
    supabaseResolve g none b = .err 401 (some "Authorization header is missing")
    ∧ anonSupabaseResolve g none b
      = .err 401 (some "Authorization header is missing") := by
  constructor <;>
    simp [supabaseResolve, anonSupabaseResolve, hu, hk,
      show isFalsy none = true from rfl]

/-- Witness for C4 at a concrete configuration. -/
theorem C4_missing_header_witness :
    supabaseResolve ⟨some "https://x.test", some "anon-key", none⟩ none backendOk
      = .err 401 (some "Authorization header is missing")
    ∧ anonSupabaseResolve ⟨some "https://x.test", some "anon-key", none⟩ none backendOk
      = .err 401 (some "Authorization header is missing") :=
  C4_missing_header_rejected_both_guards
    ⟨some "https://x.test", some "anon-key", none⟩ backendOk (by decide) (by decide)

/-- A construction-time options value carrying a custom header, a
construction-time Authorization header, another `global` field and another
top-level field; used to exercise the options merge. -/
def ctorOptions : ClientOptions :=
  { global := some
      { headers := some [("X-Custom", "v"), ("Authorization", "ctor-key")]
      , otherGlobal := some "fetch" }
  , otherTop := some "db" }

/-- The client the guards hand to the factory once the header check passed:
`createClient(supabase_url, supabase_anon_key, {...options, global:
{...options?.global, headers: { Authorization }}})`. -/
def requestClient (g : GuardState) (authorizationHeader : Option String) :
    Client :=
  createClient (g.supabaseUrl.getD "") (g.supabaseAnonKey.getD "")
    (mergeOptions g.options (authorizationHeader.getD ""))

/-- A strict-guard state whose construction options are `ctorOptions`. -/
def gCustom : GuardState :=
  ⟨some "https://x.test", some "anon-key", some ctorOptions⟩

/-- Counterexample to claim C5: construction options whose `global.headers`
holds the key "X-Custom" do not have that key preserved in the options passed
to the client factory — the request succeeds, but the constructed client's
headers no longer contain "X-Custom", because the merge replaces the whole
`headers` object with `{ Authorization }`. -/
theorem C5_other_headers_dropped_counterexample :
    (headersOf ctorOptions).lookup "X-Custom" = some "v"
    ∧ supabaseResolve gCustom (some "Bearer r") backendOk
      = .ok (requestClient gCustom (some "Bearer r")) (some ⟨"a@b.com"⟩)
    ∧ (headersOf (requestClient gCustom (some "Bearer r")).options).lookup "X-Custom"
      = none := by
  refine ⟨by decide, ?_, by decide⟩
  decide

/-- Claim C5 as amended: the merge does not preserve construction-time header
keys other than Authorization; the headers object passed to the client factory
is replaced wholesale by the one-key object `{ Authorization: per-request
value }`, so every other construction-time header key is absent from it. -/
theorem C5_headers_replaced_wholesale (options : Option ClientOptions)
    (authorization : String) (k : String) (hne : k ≠ "Authorization") :
    headersOf (mergeOptions options authorization)
      = [("Authorization", authorization)]
    ∧ (headersOf (mergeOptions options authorization)).lookup k = none := by
  have hbeq : (k == "Authorization") = false := by simpa using hne
  exact ⟨rfl, by simp [headersOf, mergeOptions, List.lookup, hbeq]⟩

/-- Witness for the amended C5 at the concrete options `ctorOptions` and the
dropped key "X-Custom". -/
theorem C5_headers_replaced_witness :
    headersOf (mergeOptions (some ctorOptions) "Bearer r")
      = [("Authorization", "Bearer r")]
    ∧ (headersOf (mergeOptions (some ctorOptions) "Bearer r")).lookup "X-Custom"
      = none :=
  C5_headers_replaced_wholesale (some ctorOptions) "Bearer r" "X-Custom" (by decide)

/-- Claim C6: for every request accepted past the header check, the
Authorization entry of the options handed to the client factory equals that
request's Authorization header value (even when the construction options
supplied their own Authorization, as the quantification over `g` includes);
top-level fields of the construction options outside `global`, and fields of
`global` outside `headers`, are forwarded unchanged; and both guards hand
exactly this client to the rest of the handler. -/
theorem C6_authorization_overridden_per_request (g : GuardState)
    (auth : Option String) (b : Client → GetUserResp)
    (hu : isFalsy g.supabaseUrl = false)
    (hk : isFalsy g.supabaseAnonKey = false)
    (ha : isFalsy auth = false) :
    (headersOf (requestClient g auth).options).lookup "Authorization"
      = some (auth.getD "")
    ∧ (requestClient g auth).options.otherTop = g.options.bind (·.otherTop)
    ∧ ((requestClient g auth).options.global.bind (·.otherGlobal))
      = (g.options.bind (·.global)).bind (·.otherGlobal)
    ∧ supabaseResolve g auth b =
        (if (b (requestClient g auth)).error then .err 401 none
         else .ok (requestClient g auth) ((b (requestClient g auth)).user))
    ∧ anonSupabaseResolve g auth b
      = .ok (requestClient g auth) ((b (requestClient g auth)).user) := by
  refine ⟨?_, rfl, rfl, ?_, ?_⟩
  · simp [requestClient, createClient, mergeOptions, headersOf, List.lookup]
  · simp [supabaseResolve, requestClient, createClient, hu, hk, ha]
  · simp [anonSupabaseResolve, requestClient, createClient, hu, hk, ha]

/-- Witness for C6: with construction options supplying both a custom header
and their own Authorization value "ctor-key", the factory receives the
per-request value "Bearer r" instead. -/
theorem C6_authorization_override_witness :
    (headersOf (requestClient gCustom (some "Bearer r")).options).lookup
      "Authorization" = some "Bearer r" :=
  (C6_authorization_overridden_per_request gCustom (some "Bearer r") backendOk
    (by decide) (by decide) (by decide)).1

/-- Claim C7: for both guards, an endpoint or access key supplied at
construction takes precedence over the environment fallback; when omitted, the
environment value is used; construction is a total function (it always yields a
guard state, never a failure), and when neither source provides the endpoint
every request fails with the 500 ConfigurationError at request time. -/
theorem C7_config_precedence_and_request_time_failure (env : Env) (v : String)
    (u k : Option String) (opts : Option ClientOptions) :
    (supabase_mk env (some v) k opts).supabaseUrl = some v
    ∧ (supabase_mk env u (some v) opts).supabaseAnonKey = some v
    ∧ (supabase_mk env none k opts).supabaseUrl = env.supabaseUrl
    ∧ (supabase_mk env u none opts).supabaseAnonKey = env.supabaseAnonKey
    ∧ (anon_supabase_mk env (some v) k opts).supabaseUrl = some v
    ∧ (anon_supabase_mk env u (some v) opts).supabaseAnonKey = some v
    ∧ (anon_supabase_mk env none k opts).supabaseUrl = env.supabaseUrl
    ∧ (anon_supabase_mk env u none opts).supabaseAnonKey = env.supabaseAnonKey
    ∧ supabase_mk env none none opts
      = ⟨env.supabaseUrl, env.supabaseAnonKey, opts⟩
    ∧ (env.supabaseUrl = none →
        ∀ (auth : Option String) (b : Client → GetUserResp),
          supabaseResolve (supabase_mk env none none opts) auth b
            = .err 500 (some "SUPABASE_URL is not set")
          ∧ anonSupabaseResolve (anon_supabase_mk env none none opts) auth b
            = .err 500 (some "SUPABASE_URL is not set")) := by
  refine ⟨rfl, rfl, rfl, rfl, rfl, rfl, rfl, rfl, rfl, fun h auth b => ⟨?_, ?_⟩⟩ <;>
    simp [supabase_mk, anon_supabase_mk, resolveArg, supabaseResolve,
      anonSupabaseResolve, h, show isFalsy none = true from rfl]

/-- Witness for C7: with an entirely empty environment and no construction
arguments, both guards construct and every request fails with the endpoint
ConfigurationError. -/
theorem C7_request_time_failure_witness :
    supabaseResolve (supabase_mk ⟨none, none⟩ none none none)
      (some "Bearer t") backendOk = .err 500 (some "SUPABASE_URL is not set")
    ∧ anonSupabaseResolve (anon_supabase_mk ⟨none, none⟩ none none none)
      (some "Bearer t") backendOk = .err 500 (some "SUPABASE_URL is not set") :=
  (C7_config_precedence_and_request_time_failure ⟨none, none⟩ "v" none none
    none).2.2.2.2.2.2.2.2.2 rfl (some "Bearer t") backendOk

/-- Counterexample to claim C8: the environment is not read anew on each
request.  A strict guard constructed while SUPABASE_URL was unset rejects every
request with the 500 ConfigurationError, even though the environment at request
time now holds a url and the spec's per-request-read model would succeed on
exactly the same inputs. -/
theorem C8_env_read_at_construction_counterexample :
    supabaseResolve (supabase_mk ⟨none, some "anon-key"⟩ none none none)
      (some "Bearer t") backendOk = .err 500 (some "SUPABASE_URL is not set")
    ∧ supabaseResolveEnvPerRequest ⟨some "https://x.test", some "anon-key"⟩
        none none none (some "Bearer t") backendOk
      = .ok (requestClient ⟨some "https://x.test", some "anon-key", none⟩
          (some "Bearer t")) (some ⟨"a@b.com"⟩) := by
  exact ⟨by decide, by decide⟩

/-- Claim C8 as amended: when endpoint or key is not supplied at construction,
SUPABASE_URL and SUPABASE_ANON_KEY are read once at guard construction (when
the factory's default parameters are evaluated), not once per request; the
resolve closure captures the resolved snapshot, so requests behave exactly as
the per-request-read model would at the construction-time environment, and a
guard whose construction-time environment lacked the url rejects every request
with the 500 error no matter what the environment holds later. -/
theorem C8_env_snapshot_at_construction (envCtor : Env) (u k : Option String)
    (opts : Option ClientOptions) (auth : Option String)
    (b : Client → GetUserResp) :
    supabase_mk envCtor u k opts
      = ⟨resolveArg u envCtor.supabaseUrl, resolveArg k envCtor.supabaseAnonKey,
          opts⟩
    ∧ supabaseResolve (supabase_mk envCtor u k opts) auth b
      = supabaseResolveEnvPerRequest envCtor u k opts auth b
    ∧ (envCtor.supabaseUrl = none →
        supabaseResolve (supabase_mk envCtor none k opts) auth b
          = .err 500 (some "SUPABASE_URL is not set")) := by
  refine ⟨rfl, rfl, fun h => ?_⟩
  simp [supabase_mk, resolveArg, supabaseResolve, h,
    show isFalsy none = true from rfl]

/-- Witness for the amended C8: construction under an empty environment pins
the 500 outcome for all later requests. -/
theorem C8_env_snapshot_witness :
    supabaseResolve (supabase_mk ⟨none, some "anon-key"⟩ none none none)
      (some "Bearer later") backendOk
      = .err 500 (some "SUPABASE_URL is not set") :=
  (C8_env_snapshot_at_construction ⟨none, some "anon-key"⟩ none none none
    (some "Bearer later") backendOk).2.2 rfl

/-- Claim C9: for both guard variants, a request whose Authorization header is
present but empty is treated exactly like a request with no Authorization
header (the handler outcomes coincide on every configuration and backend), and
once the configuration checks pass it is rejected with 401 "Authorization
header is missing" — in particular no client is ever constructed with an empty
credential. -/
theorem C9_empty_authorization_like_missing (g : GuardState)
    (b : Client → GetUserResp) :
    supabaseResolve g (some "") b = supabaseResolve g none b
    ∧ anonSupabaseResolve g (some "") b = anonSupabaseResolve g none b
    ∧ (isFalsy g.supabaseUrl = false → isFalsy g.supabaseAnonKey = false →
        supabaseResolve g (some "") b
          = .err 401 (some "Authorization header is missing")
        ∧ anonSupabaseResolve g (some "") b
          = .err 401 (some "Authorization header is missing")) := by
  refine ⟨?_, ?_, fun hu hk => ⟨?_, ?_⟩⟩ <;>
    simp [supabaseResolve, anonSupabaseResolve, *,
      show isFalsy (some "") = true from rfl, show isFalsy none = true from rfl]

/-- Witness for C9 at a concrete resolvable configuration. -/
theorem C9_empty_authorization_witness :
    supabaseResolve ⟨some "https://x.test", some "anon-key", none⟩ (some "")
      backendOk = .err 401 (some "Authorization header is missing")
    ∧ anonSupabaseResolve ⟨some "https://x.test", some "anon-key", none⟩
      (some "") backendOk = .err 401 (some "Authorization header is missing") :=
  (C9_empty_authorization_like_missing
    ⟨some "https://x.test", some "anon-key", none⟩ backendOk).2.2
    (by decide) (by decide)

/-- Claim C10: for both guard variants, an endpoint or access key explicitly
supplied at construction as the empty string is neither used nor replaced by
the environment fallback (the fallback applies only to an absent argument), and
since the request-time truthiness check treats "" as unset, every request then
fails with the corresponding 500 "... is not set" error — whatever the
environment holds. -/
theorem C10_empty_string_config_not_replaced (env : Env)
    (otherKey otherUrl : Option String) (opts : Option ClientOptions)
    (auth : Option String) (b : Client → GetUserResp) :
    supabaseResolve (supabase_mk env (some "") otherKey opts) auth b
      = .err 500 (some "SUPABASE_URL is not set")
    ∧ anonSupabaseResolve (anon_supabase_mk env (some "") otherKey opts) auth b
      = .err 500 (some "SUPABASE_URL is not set")
    ∧ (isFalsy (resolveArg otherUrl env.supabaseUrl) = false →
        supabaseResolve (supabase_mk env otherUrl (some "") opts) auth b
          = .err 500 (some "SUPABASE_ANON_KEY is not set")
        ∧ anonSupabaseResolve (anon_supabase_mk env otherUrl (some "") opts)
            auth b = .err 500 (some "SUPABASE_ANON_KEY is not set")) := by
  have hres : ∀ x : Option String, resolveArg (some "") x = some "" :=
    fun _ => rfl
  refine ⟨?_, ?_, fun hu => ⟨?_, ?_⟩⟩ <;>
    simp [supabase_mk, anon_supabase_mk, supabaseResolve, anonSupabaseResolve,
      hres, show isFalsy (some "") = true from rfl, *]

/-- Witness for C10: with an environment holding non-empty values for both
variables, an explicit empty-string endpoint (resp. key) still yields the 500
error. -/
theorem C10_empty_string_witness :
    supabaseResolve (supabase_mk ⟨some "https://env.test", some "env-key"⟩
      (some "") none none) (some "Bearer t") backendOk
      = .err 500 (some "SUPABASE_URL is not set")
    ∧ supabaseResolve (supabase_mk ⟨some "https://env.test", some "env-key"⟩
      none (some "") none) (some "Bearer t") backendOk
      = .err 500 (some "SUPABASE_ANON_KEY is not set") :=
  ⟨(C10_empty_string_config_not_replaced ⟨some "https://env.test", some "env-key"⟩
      none none none (some "Bearer t") backendOk).1,
   ((C10_empty_string_config_not_replaced ⟨some "https://env.test", some "env-key"⟩
      none none none (some "Bearer t") backendOk).2.2 (by decide)).1⟩

end ElysiaSupabase
